import Mathlib

/-!
Verification development for the finance-variance-analysis application
(src/app.py). The app loads a CSV of plan-vs-actuals rows, shows two pivot
tables (Plan and Actuals by Account and Month), and answers questions with a
pandas-dataframe LLM agent. This file embeds the data model and the
orchestration logic of app.py and proves properties about them.
-/

/-- A rectangular table as produced by `pd.read_csv`: a header of column names
and a list of rows, each row a list of cell values (modelled as strings). -/
structure DataFrame where
  columns : List String
  rows : List (List String)
deriving Repr, DecidableEq

/-- Loader failures. `malformedInput` models a `pandas` parse failure on a
non-rectangular stream; `noDataAvailable` models the branch of app.py lines
38-40, where neither an upload nor `sample_data.csv` is available. -/
inductive LoadError where
  | malformedInput
  | noDataAvailable
deriving Repr, DecidableEq

/-- Pivot failures. `duplicateEntries` models the `ValueError` raised by
`df.pivot` when the (index, columns) pair is duplicated ("Index contains
duplicate entries, cannot reshape"); `keyNotFound` models the `KeyError`
raised when a named column is absent. -/
inductive PivotError where
  | duplicateEntries
  | keyNotFound
deriving Repr, DecidableEq

/-- Embedding of `pd.read_csv` on an already-tokenized byte stream (delimiter
splitting abstracted): the first line is the header, every further line is a
data row. pandas fails if the stream is empty or ragged; it performs no
column-name validation and keeps every row. This mirrors app.py lines 32/36,
where the result of `pd.read_csv` is used directly with no schema check. -/
def read_csv (cells : List (List String)) : Except LoadError DataFrame :=
  match cells with
  | [] => .error .malformedInput
  | header :: rest =>
      if rest.all (fun r => r.length = header.length) then
        .ok ⟨header, rest⟩
      else .error .malformedInput

/-- Data-source resolution of app.py lines 31-40: an explicit upload is used
when present; otherwise the default `sample_data.csv` is read; if that file
does not exist either, the script errors and stops. A source is modelled as
the tokenized contents of the file when it exists. -/
def loadPhase (uploaded sample : Option (List (List String))) :
    Except LoadError DataFrame :=
  match uploaded with
  | some cells => read_csv cells
  | none =>
      match sample with
      | some cells => read_csv cells
      | none => .error .noDataAvailable

/-- Position of a named column in the header, as pandas column lookup. -/
def colIdx (df : DataFrame) (c : String) : Option Nat :=
  df.columns.findIdx? (fun x => x == c)

/-- The (index, columns) key pair of every row, given the resolved positions
of the two key columns. Missing cells read as the empty string. -/
def keyPairs (df : DataFrame) (ii ic : Nat) : List (String × String) :=
  df.rows.map (fun r => (r.getD ii (""), r.getD ic ("")))

/-- Whether some key pair occurs more than once. -/
def hasDupKeys : List (String × String) → Bool
  | [] => false
  | p :: rest => rest.contains p || hasDupKeys rest

/-- The values of the Month column, at resolved position `ic`. -/
def monthsOf (df : DataFrame) (ic : Nat) : List String :=
  df.rows.map (fun r => r.getD ic (""))

/-- A two-dimensional pivot table: row keys, column keys, and the cell
entries keyed by (row key, column key). -/
structure PivotTable where
  rowKeys : List String
  colKeys : List String
  entries : List ((String × String) × String)
deriving Repr, DecidableEq

/-- The table `df.pivot` builds when the key pairs are unique: one entry per
source row, with the distinct index values as row keys and the distinct
column values as column keys. -/
def mkPivotTable (df : DataFrame) (ii ic iv : Nat) : PivotTable :=
  { rowKeys := ((keyPairs df ii ic).map Prod.fst).dedup,
    colKeys := ((keyPairs df ii ic).map Prod.snd).dedup,
    entries := df.rows.map (fun r => ((r.getD ii (""), r.getD ic ("")), r.getD iv (""))) }

/-- Embedding of `df.pivot(index=..., columns=..., values=...)` (app.py lines
49 and 52): fails with `keyNotFound` if a named column is absent, with
`duplicateEntries` if some (index, columns) pair is duplicated, and otherwise
reshapes without mutating the dataframe. -/
def pivot (df : DataFrame) (index columns values : String) :
    Except PivotError PivotTable :=
  match colIdx df index, colIdx df columns, colIdx df values with
  | some ii, some ic, some iv =>
      if hasDupKeys (keyPairs df ii ic) then .error .duplicateEntries
      else .ok (mkPivotTable df ii ic iv)
  | _, _, _ => .error .keyNotFound

/-- The fixed canonical calendar-period ordering of app.py line 55. -/
def month_order : List String :=
  ["Jan", "Feb", "Mar", "Apr", "May", "Jun", "Jul", "Aug", "Sep", "Oct", "Nov", "Dec"]

/-- app.py line 58: the canonical months that actually occur among the pivot
table's columns, in canonical order. -/
def available_months (t : PivotTable) : List String :=
  month_order.filter (fun m => t.colKeys.contains m)

/-- Column selection `t[cols]` (app.py lines 59-60): keeps the rows, reindexes
the columns to exactly `cols` in the given order. -/
def reindexCols (t : PivotTable) (cols : List String) : PivotTable :=
  { rowKeys := t.rowKeys, colKeys := cols,
    entries := t.entries.filter (fun e => cols.contains e.fst.snd) }

/-- The pivot-building block of app.py lines 47-60: build the Plan pivot, then
the Actuals pivot, then reorder both to the canonical months present in the
Plan pivot. The first failure aborts the block (the `try` body). -/
def buildPivots (df : DataFrame) :
    Except PivotError (PivotTable × PivotTable × List String) :=
  match pivot df ("Account") ("Month") ("Plan") with
  | .error e => .error e
  | .ok plan_pivot =>
      match pivot df ("Account") ("Month") ("Actuals") with
      | .error e => .error e
      | .ok actual_pivot =>
          .ok (reindexCols plan_pivot (available_months plan_pivot),
               reindexCols actual_pivot (available_months plan_pivot),
               available_months plan_pivot)

/-- What the Data Preview expander renders: the two pivot tables on success,
or (app.py lines 80-83, the `except` branch) an error note with the first 20
raw rows — never a partially built pivot table. -/
inductive PreviewOutcome where
  | pivotView (plan_pivot actual_pivot : PivotTable) (months : List String)
  | rawPreview (head : List (List String))
deriving Repr, DecidableEq

/-- The Data Preview section of app.py lines 43-83. -/
def dataPreview (df : DataFrame) : PreviewOutcome :=
  match buildPivots df with
  | .ok (p, a, ms) => .pivotView p a ms
  | .error _ => .rawPreview (df.rows.take 20)

/-- The instruction string of app.py lines 143-147: the f-string
`"Context provided by user: {context}\n\nQuestion: {question}\n\nPlease
provide a clear and concise answer based on the data and context provided."` -/
def final_prompt (context question : String) : String :=
  ("Context provided by user: ") ++ context ++ ("\n\nQuestion: ") ++ question ++
    ("\n\nPlease provide a clear and concise answer based on the data and context provided.")

/-- The fixed leading text of the instruction string. -/
def contextHeader : String := "Context provided by user: "

/-- The fixed text between the context and the question. -/
def questionHeader : String := "\n\nQuestion: "

/-- The fixed concluding directive of the instruction string. -/
def answerDirective : String :=
  "\n\nPlease provide a clear and concise answer based on the data and context provided."

/-- What the chat section renders for one question. -/
inductive ChatOutcome where
  | answered (text : String)
  | errorShown (msg : String)
  | noOp
deriving Repr, DecidableEq

/-- The chat section of app.py lines 129-161. `invoke df p` abstracts
constructing the LLM and the pandas-dataframe agent over `df` and calling
`agent.invoke(p)`; any exception from that block is the `.error` case and is
rendered as "An error occurred: ...". Python string truthiness is modelled as
inequality with the empty string. The `if question and api_key` branch runs
the agent; the `elif question and not api_key` branch shows the key prompt;
otherwise nothing is rendered. -/
def chatSection (invoke : DataFrame → String → Except String String)
    (df : DataFrame) (context question api_key : String) : ChatOutcome :=
  if question ≠ ("") ∧ api_key ≠ ("") then
    match invoke df (final_prompt context question) with
    | .ok out => .answered out
    | .error e => .errorShown (("An error occurred: ") ++ e)
  else if question ≠ ("") ∧ api_key = ("") then
    .errorShown ("Please enter your API Key in the sidebar.")
  else .noOp

/-- Outcome of one full script run: either the script halted during loading
(`st.stop()` on line 40, or an uncaught parse exception) before the preview
and chat sections exist, or it rendered the page with both sections. -/
inductive AppOutcome where
  | halted (err : LoadError)
  | page (preview : PreviewOutcome) (chat : ChatOutcome)
deriving Repr, DecidableEq

/-- One top-to-bottom run of app.py: load (halting on failure), then the
preview section and the chat section over the same dataframe. -/
def appScript (uploaded sample : Option (List (List String)))
    (invoke : DataFrame → String → Except String String)
    (context question api_key : String) : AppOutcome :=
  match loadPhase uploaded sample with
  | .error e => .halted e
  | .ok df => .page (dataPreview df) (chatSection invoke df context question api_key)

/-- The agent construction of app.py lines 134-140: a pandas-dataframe agent
with `agent_type=AgentType.ZERO_SHOT_REACT_DESCRIPTION`, `verbose=True` and
`allow_dangerous_code=True`. -/
structure AgentConfig where
  agent_type : String
  verbose : Bool
  allow_dangerous_code : Bool
deriving Repr, DecidableEq

/-- The configuration the app passes to `create_pandas_dataframe_agent`. -/
def appAgentConfig : AgentConfig :=
  { agent_type := "zero-shot-react-description",
    verbose := true,
    allow_dangerous_code := true }

/-- Kinds of observable effects a planner-proposed query can attempt. -/
inductive QueryEffect where
  | datasetRead
  | fileSystemAccess
  | networkAccess
  | processAccess
deriving Repr, DecidableEq

/-- Which effects the query-execution tool permits under a given
configuration. Modelled from the library contract the source opts into:
`create_pandas_dataframe_agent` executes planner-proposed queries through a
Python REPL tool running in the application process, and constructing it
requires `allow_dangerous_code=True` precisely because the executed code is
arbitrary Python — it can reach the filesystem, the network and process
state, not only the dataframe. With the flag off, construction refuses and no
query runs at all, so only dataset reads (trivially) remain. -/
def effectPermitted (c : AgentConfig) : QueryEffect → Bool
  | .datasetRead => true
  | .fileSystemAccess => c.allow_dangerous_code
  | .networkAccess => c.allow_dangerous_code
  | .processAccess => c.allow_dangerous_code

/-- One planner decision in the plan-act-observe loop: propose a query to
execute, or emit the final answer. -/
inductive PlannerStep where
  | proposeQuery (q : String)
  | finalAnswer (a : String)

/-- Agent-level failures of the reasoning loop. -/
inductive AgentError where
  | stepLimitExceeded (bestSoFar : Option String)
  | providerError (msg : String)
  | preconditionError (msg : String)
deriving Repr, DecidableEq

/-- Modelled from the spec: the plan-act-observe loop of the Reasoning Agent
(spec section 4.4). The source delegates this loop to the external agent
library (`create_pandas_dataframe_agent` / `agent.invoke`), so its body is
not under src/; only its caller is. At each step the planner sees the list of
observations so far and either proposes a query — which is executed, its
result appended as an observation — or emits a final answer. When the step
bound is exhausted the loop stops with `stepLimitExceeded`, carrying the last
observation as the best available answer material, if any. -/
def planActObserve (planner : List String → PlannerStep)
    (execute : String → String) : Nat → List String → Except AgentError String
  | 0, obs => .error (.stepLimitExceeded obs.getLast?)
  | fuel + 1, obs =>
      match planner obs with
      | .finalAnswer a => .ok a
      | .proposeQuery q => planActObserve planner execute fuel (obs ++ [execute q])

/-- Modelled from the spec: `answer` enters the plan-act-observe loop with no
observations and at most `stepBound` planning steps. -/
def answer (stepBound : Nat) (planner : List String → PlannerStep)
    (execute : String → String) : Except AgentError String :=
  planActObserve planner execute stepBound []

/-- Number of planning steps the loop actually performs. -/
def plannerCalls (planner : List String → PlannerStep)
    (execute : String → String) : Nat → List String → Nat
  | 0, _ => 0
  | fuel + 1, obs =>
      match planner obs with
      | .finalAnswer _ => 1
      | .proposeQuery q => 1 + plannerCalls planner execute fuel (obs ++ [execute q])

/-! ## Helper lemmas -/

lemma contains_dedup (l : List String) (a : String) :
    (l.dedup.contains a) = (l.contains a) := by
  simp [List.contains, List.elem_eq_mem, List.mem_dedup]

lemma plannerCalls_le (planner : List String → PlannerStep)
    (execute : String → String) :
    ∀ (fuel : Nat) (obs : List String), plannerCalls planner execute fuel obs ≤ fuel := by
  intro fuel
  induction fuel with
  | zero => intro obs; simp [plannerCalls]
  | succ n ih =>
      intro obs
      cases h : planner obs with
      | finalAnswer a => simp [plannerCalls, h]
      | proposeQuery q =>
          have hle := ih (obs ++ [execute q])
          simp only [plannerCalls, h]
          omega

lemma planActObserve_stepLimit (planner : List String → PlannerStep)
    (execute : String → String)
    (h : ∀ obs, ∃ q, planner obs = PlannerStep.proposeQuery q) :
    ∀ (fuel : Nat) (obs : List String), ∃ best,
      planActObserve planner execute fuel obs =
        Except.error (AgentError.stepLimitExceeded best) := by
  intro fuel
  induction fuel with
  | zero => intro obs; exact ⟨obs.getLast?, rfl⟩
  | succ n ih =>
      intro obs
      obtain ⟨q, hq⟩ := h obs
      simp only [planActObserve, hq]
      exact ih (obs ++ [execute q])

/-! ## Claim theorems -/

/-- C3: for every question submitted while no API credential is available,
the chat section rejects the call with the credential error message, and the
reasoning agent is never constructed or invoked — the outcome is the same
constant for every possible agent behaviour `invoke`. -/
theorem question_without_api_key_rejected
    (invoke : DataFrame → String → Except String String) (df : DataFrame)
    (context question : String) (hq : question ≠ ("")) :
    chatSection invoke df context question ("") =
      ChatOutcome.errorShown ("Please enter your API Key in the sidebar.") := by
  simp [chatSection, hq]

/-- Witness for C3 at a concrete state. -/
theorem question_without_api_key_rejected_witness :
    chatSection (fun _ _ => Except.ok ("ignored")) ⟨["Account"], []⟩
        ("some context") ("What was the Jan variance?") ("") =
      ChatOutcome.errorShown ("Please enter your API Key in the sidebar.") :=
  question_without_api_key_rejected (fun _ _ => Except.ok ("ignored"))
    ⟨["Account"], []⟩ ("some context") ("What was the Jan variance?") (by decide)

/-- C10: submitting an empty question is a no-op at the public interface, for
every session state (any API key, any dataset, any agent behaviour): the
agent is never invoked and no error message is produced. -/
theorem empty_question_no_op
    (invoke : DataFrame → String → Except String String) (df : DataFrame)
    (context api_key : String) :
    chatSection invoke df context ("") api_key = ChatOutcome.noOp := by
  simp [chatSection]

/-- C9: the instruction passed to the planner is the single string that
embeds the context narrative verbatim, followed by the literal question,
followed by the directive to answer concisely and only from the data/context
given. Running the chat section with an agent that echoes its instruction
shows that exactly this composed string reaches the planner. -/
theorem prompt_embeds_context_question_directive (df : DataFrame)
    (context question api_key : String) (hq : question ≠ ("")) (hk : api_key ≠ ("")) :
    final_prompt context question =
      contextHeader ++ context ++ questionHeader ++ question ++ answerDirective ∧
    chatSection (fun _ p => Except.ok p) df context question api_key =
      ChatOutcome.answered
        (contextHeader ++ context ++ questionHeader ++ question ++ answerDirective) := by
  constructor
  · rfl
  · simp [chatSection, hq, hk, final_prompt, contextHeader, questionHeader, answerDirective]

/-- Witness for C9 at a concrete context and question. -/
theorem prompt_embeds_context_question_directive_witness :
    final_prompt ("Jan was favorable.") ("What was the Jan variance?") =
      contextHeader ++ ("Jan was favorable.") ++ questionHeader ++
        ("What was the Jan variance?") ++ answerDirective ∧
    chatSection (fun _ p => Except.ok p) ⟨["Account"], []⟩
        ("Jan was favorable.") ("What was the Jan variance?") ("k") =
      ChatOutcome.answered
        (contextHeader ++ ("Jan was favorable.") ++ questionHeader ++
          ("What was the Jan variance?") ++ answerDirective) :=
  prompt_embeds_context_question_directive ⟨["Account"], []⟩
    ("Jan was favorable.") ("What was the Jan variance?") ("k")
    (by decide) (by decide)

/-- C7: with no explicit upload the loader falls back to the default source;
when that default is also unavailable it fails with `noDataAvailable` and the
script halts before the question-answering section exists, for every context,
question, credential and agent behaviour. -/
theorem missing_default_source_halts :
    (∀ cells, loadPhase none (some cells) = read_csv cells) ∧
    loadPhase none none = Except.error LoadError.noDataAvailable ∧
    ∀ (invoke : DataFrame → String → Except String String)
      (context question api_key : String),
      appScript none none invoke context question api_key =
        AppOutcome.halted LoadError.noDataAvailable := by
  refine ⟨fun cells => rfl, rfl, fun invoke context question api_key => rfl⟩

/-- C5 counterexample: a rectangular table that lacks every required column
(account, period, plan, actual) loads successfully — `read_csv` returns the
dataset rather than failing with a missing-columns error, and the returned
dataset does not contain an `Account` column. -/
theorem load_missing_column_not_rejected :
    read_csv [["Foo", "Bar"], ["1", "2"]] =
      Except.ok (DataFrame.mk ["Foo", "Bar"] [["1", "2"]]) ∧
    (DataFrame.mk ["Foo", "Bar"] [["1", "2"]]).columns.contains ("Account") = false :=
  ⟨rfl, rfl⟩

/-- C5 amended: `load` performs no required-column validation. On every
rectangular input it succeeds and returns exactly the parsed header as the
column set — whatever the column names are — and every data row, dropping
none; a missing required column is not detected at load time. -/
theorem load_returns_parsed_table_unvalidated (header : List String)
    (rest : List (List String))
    (hrect : rest.all (fun r => r.length = header.length) = true) :
    read_csv (header :: rest) = Except.ok (DataFrame.mk header rest) := by
  simp [read_csv, hrect]

/-- Witness for the amended C5 on a concrete table without required columns. -/
theorem load_returns_parsed_table_unvalidated_witness :
    read_csv ([["Foo", "Bar"], ["1", "2"], ["3", "4"]]) =
      Except.ok (DataFrame.mk ["Foo", "Bar"] [["1", "2"], ["3", "4"]]) :=
  load_returns_parsed_table_unvalidated ["Foo", "Bar"] [["1", "2"], ["3", "4"]]
    (by decide)

/-- C1 counterexample: the claim that every executed query is confined to the
sandboxed dataset view is false for the configuration the app actually
passes: with `allow_dangerous_code := true`, the query-execution tool permits
filesystem access, an observable side effect outside the dataset view. -/
theorem agent_tool_not_sandboxed_counterexample :
    effectPermitted appAgentConfig QueryEffect.fileSystemAccess = true ∧
    QueryEffect.fileSystemAccess ≠ QueryEffect.datasetRead :=
  ⟨rfl, by decide⟩

/-- C1 amended: the agent is constructed with `allow_dangerous_code=True`, so
planner-proposed queries run as arbitrary Python in the application process:
filesystem, network and process effects are permitted, not rejected — there
is no isolated evaluation context. -/
theorem agent_tool_dangerous_code_enabled :
    appAgentConfig.allow_dangerous_code = true ∧
    effectPermitted appAgentConfig QueryEffect.fileSystemAccess = true ∧
    effectPermitted appAgentConfig QueryEffect.networkAccess = true ∧
    effectPermitted appAgentConfig QueryEffect.processAccess = true :=
  ⟨rfl, rfl, rfl, rfl⟩

/-- C2: the plan-act-observe loop is bounded: for every planner behaviour it
performs at most `stepBound` planning steps, and for a planner that keeps
proposing queries forever, `answer` returns `stepLimitExceeded` (carrying the
best available material, if any) rather than looping further. -/
theorem agent_loop_step_bound (stepBound : Nat)
    (planner : List String → PlannerStep) (execute : String → String) :
    plannerCalls planner execute stepBound [] ≤ stepBound ∧
    ((∀ obs, ∃ q, planner obs = PlannerStep.proposeQuery q) →
      ∃ best, answer stepBound planner execute =
        Except.error (AgentError.stepLimitExceeded best)) := by
  refine ⟨plannerCalls_le planner execute stepBound [], fun h => ?_⟩
  exact planActObserve_stepLimit planner execute h stepBound []

/-- Witness for C2: a concrete planner that always proposes another query is
stopped after the bound with a step-limit error. -/
theorem agent_loop_step_bound_witness :
    plannerCalls (fun _ => PlannerStep.proposeQuery ("df.shape"))
        (fun _ => ("(2, 4)")) 3 [] ≤ 3 ∧
    ∃ best, answer 3 (fun _ => PlannerStep.proposeQuery ("df.shape"))
        (fun _ => ("(2, 4)")) =
      Except.error (AgentError.stepLimitExceeded best) :=
  ⟨(agent_loop_step_bound 3 (fun _ => PlannerStep.proposeQuery ("df.shape"))
      (fun _ => ("(2, 4)"))).1,
   (agent_loop_step_bound 3 (fun _ => PlannerStep.proposeQuery ("df.shape"))
      (fun _ => ("(2, 4)"))).2 (fun _ => ⟨("df.shape"), rfl⟩)⟩

/-- C4: on a dataset with a duplicated (account, period) pair, `pivot` fails
with the duplicate-key error — surfaced, never silently overwritten — and the
preview section renders the raw-data fallback, never a partially built pivot
table. -/
theorem pivot_duplicate_key_error (df : DataFrame) (ia im ip : Nat)
    (hA : colIdx df ("Account") = some ia)
    (hM : colIdx df ("Month") = some im)
    (hP : colIdx df ("Plan") = some ip)
    (hdup : hasDupKeys (keyPairs df ia im) = true) :
    pivot df ("Account") ("Month") ("Plan") = Except.error PivotError.duplicateEntries ∧
    dataPreview df = PreviewOutcome.rawPreview (df.rows.take 20) := by
  have hpiv : pivot df ("Account") ("Month") ("Plan") =
      Except.error PivotError.duplicateEntries := by
    simp [pivot, hA, hM, hP, hdup]
  refine ⟨hpiv, ?_⟩
  simp [dataPreview, buildPivots, hpiv]

/-- Witness for C4: the dataset has the row key (Revenue, Jan) twice. -/
theorem pivot_duplicate_key_error_witness :
    pivot ⟨["Account", "Month", "Plan", "Actuals"],
           [["Revenue", "Jan", "100", "102"], ["Revenue", "Jan", "100", "95"]]⟩
        ("Account") ("Month") ("Plan") = Except.error PivotError.duplicateEntries ∧
    dataPreview ⟨["Account", "Month", "Plan", "Actuals"],
                 [["Revenue", "Jan", "100", "102"], ["Revenue", "Jan", "100", "95"]]⟩ =
      PreviewOutcome.rawPreview
        [["Revenue", "Jan", "100", "102"], ["Revenue", "Jan", "100", "95"]] :=
  pivot_duplicate_key_error
    ⟨["Account", "Month", "Plan", "Actuals"],
     [["Revenue", "Jan", "100", "102"], ["Revenue", "Jan", "100", "95"]]⟩
    0 1 2 rfl rfl rfl rfl

/-- C8: a pivot failure is terminal for the preview section only: for every
dataset on which building the pivot tables fails, the preview falls back to
the raw rows, while the question-answering path over the same dataset still
reaches an Answered outcome. -/
theorem pivot_failure_confined_to_preview (df : DataFrame) (e : PivotError)
    (invoke : DataFrame → String → Except String String)
    (context question api_key ans : String)
    (hpiv : buildPivots df = Except.error e)
    (hq : question ≠ ("")) (hk : api_key ≠ (""))
    (hagent : invoke df (final_prompt context question) = Except.ok ans) :
    dataPreview df = PreviewOutcome.rawPreview (df.rows.take 20) ∧
    chatSection invoke df context question api_key = ChatOutcome.answered ans := by
  constructor
  · simp [dataPreview, hpiv]
  · simp [chatSection, hq, hk, hagent]

/-- Witness for C8: a duplicated key breaks the pivot view, yet the agent
still answers over the same dataset. -/
theorem pivot_failure_confined_to_preview_witness :
    dataPreview ⟨["Account", "Month", "Plan", "Actuals"],
                 [["Revenue", "Feb", "100", "95"], ["Revenue", "Feb", "100", "95"]]⟩ =
      PreviewOutcome.rawPreview
        [["Revenue", "Feb", "100", "95"], ["Revenue", "Feb", "100", "95"]] ∧
    chatSection (fun _ _ => Except.ok ("The Feb variance is -5."))
        ⟨["Account", "Month", "Plan", "Actuals"],
         [["Revenue", "Feb", "100", "95"], ["Revenue", "Feb", "100", "95"]]⟩
        ("ctx") ("What was the Feb variance?") ("k") =
      ChatOutcome.answered ("The Feb variance is -5.") :=
  pivot_failure_confined_to_preview
    ⟨["Account", "Month", "Plan", "Actuals"],
     [["Revenue", "Feb", "100", "95"], ["Revenue", "Feb", "100", "95"]]⟩
    PivotError.duplicateEntries
    (fun _ _ => Except.ok ("The Feb variance is -5."))
    ("ctx") ("What was the Feb variance?") ("k") ("The Feb variance is -5.")
    rfl (by decide) (by decide) rfl

/-- C6: for a well-formed dataset (required columns resolvable, unique
(account, period) pairs) the pivot block succeeds and the column order of
both displayed pivot tables is the fixed canonical calendar order restricted
to the periods actually present in the dataset; absent periods are omitted,
and the two tables share their row and column key sets. -/
theorem pivot_columns_canonical_order (df : DataFrame) (ia im ip iq : Nat)
    (hA : colIdx df ("Account") = some ia)
    (hM : colIdx df ("Month") = some im)
    (hP : colIdx df ("Plan") = some ip)
    (hQ : colIdx df ("Actuals") = some iq)
    (hnodup : hasDupKeys (keyPairs df ia im) = false) :
    ∃ p a, buildPivots df =
        Except.ok (p, a, month_order.filter (fun m => (monthsOf df im).contains m)) ∧
      p.colKeys = month_order.filter (fun m => (monthsOf df im).contains m) ∧
      a.colKeys = p.colKeys ∧
      a.rowKeys = p.rowKeys := by
  have hplan : pivot df ("Account") ("Month") ("Plan") =
      Except.ok (mkPivotTable df ia im ip) := by
    simp [pivot, hA, hM, hP, hnodup]
  have hact : pivot df ("Account") ("Month") ("Actuals") =
      Except.ok (mkPivotTable df ia im iq) := by
    simp [pivot, hA, hM, hQ, hnodup]
  have hmap : (keyPairs df ia im).map Prod.snd = monthsOf df im := by
    simp [keyPairs, monthsOf]
  have havail : available_months (mkPivotTable df ia im ip) =
      month_order.filter (fun m => (monthsOf df im).contains m) := by
    show month_order.filter
        (fun m => (((keyPairs df ia im).map Prod.snd).dedup).contains m) = _
    rw [hmap]
    exact List.filter_congr (fun m _ => contains_dedup (monthsOf df im) m)
  refine ⟨reindexCols (mkPivotTable df ia im ip)
            (month_order.filter (fun m => (monthsOf df im).contains m)),
          reindexCols (mkPivotTable df ia im iq)
            (month_order.filter (fun m => (monthsOf df im).contains m)),
          ?_, rfl, rfl, rfl⟩
  simp only [buildPivots, hplan, hact, havail]

/-- Witness for C6: a dataset whose months appear out of order (Mar before
Jan) pivots to the canonical column order `[Jan, Mar]`, omitting the absent
months. -/
theorem pivot_columns_canonical_order_witness :
    (∃ p a, buildPivots ⟨["Account", "Month", "Plan", "Actuals"],
              [["Revenue", "Mar", "100", "95"], ["Revenue", "Jan", "100", "102"]]⟩ =
          Except.ok (p, a, month_order.filter (fun m =>
            (monthsOf ⟨["Account", "Month", "Plan", "Actuals"],
              [["Revenue", "Mar", "100", "95"], ["Revenue", "Jan", "100", "102"]]⟩
                1).contains m)) ∧
        p.colKeys = month_order.filter (fun m =>
          (monthsOf ⟨["Account", "Month", "Plan", "Actuals"],
            [["Revenue", "Mar", "100", "95"], ["Revenue", "Jan", "100", "102"]]⟩
              1).contains m) ∧
        a.colKeys = p.colKeys ∧
        a.rowKeys = p.rowKeys) ∧
    month_order.filter (fun m =>
      (monthsOf ⟨["Account", "Month", "Plan", "Actuals"],
        [["Revenue", "Mar", "100", "95"], ["Revenue", "Jan", "100", "102"]]⟩
          1).contains m) = ["Jan", "Mar"] :=
  ⟨pivot_columns_canonical_order
      ⟨["Account", "Month", "Plan", "Actuals"],
       [["Revenue", "Mar", "100", "95"], ["Revenue", "Jan", "100", "102"]]⟩
      0 1 2 3 rfl rfl rfl rfl rfl,
   rfl⟩
